import Mathlib

/-!
Shallow embedding of the snap-fit calculation core of `src/SnapFitCalc.py`.

The Python source is a Streamlit app; its computational core is:
  - the profile catalog `PROFILE_FACTORS` (lines 65-78),
  - the calculation engine `calculate_snap_fit` (lines 84-104),
  - the parametric-sweep loop of the Parametric Study tab (lines 205-215).
Python floats are modelled as real numbers; `np.radians` and `np.tan` as
the corresponding real functions.  When the engine is called from the
Calculator tab its arguments are plain Python floats, and Python raises
`ZeroDivisionError` when a plain-float division has a zero denominator;
this is modelled by an `Except` result whose error branch fires exactly
when a denominator of the executed profile branch (or the length `L`) is
zero.  The final division for `W` involves a numpy scalar, and numpy
division by zero does not raise (it yields an IEEE infinity with a
warning); it is modelled by total real division.

The sweep loop is different: the swept value is an `np.float64` scalar
produced by `np.linspace`, and the only denominator that can be zero
there is that swept value (the remaining denominators are the nonzero
defaults).  A numpy-scalar division by zero yields an IEEE infinity with
a warning instead of raising, so the sweep body always returns a result
and the loop always produces all rows; it is modelled by the total
function `calculate_snap_fit_np`.  The IEEE infinity at a zero sample
lies outside the real-number model; total real division stands in for
it, and no claim depends on the outputs at such a sample.
-/

namespace SnapFit

/-- The four profile families distinguished by the substring dispatch
on the profile name in lines 88-99 of the source. -/
inductive Family
  | Rectangle
  | Trapezoid
  | RingSegment
  | Irregular
  deriving DecidableEq, Fintype

/-- The 12 profile variants, i.e. the 12 keys of the dict
`PROFILE_FACTORS` in lines 65-78 of the source. -/
inductive Profile
  | rectConst
  | rectYHalved
  | rectZQuartered
  | trapConst
  | trapYHalved
  | trapZQuartered
  | ringConst
  | ringYHalved
  | ringZQuartered
  | irregConst
  | irregYHalved
  | irregZQuartered
  deriving DecidableEq, Fintype

/-- Which branch of the `if "Rectangle" in profile / elif "Trapezoid" ...`
chain (lines 88-99) a given profile name selects.  Each of the 12 key
strings contains exactly one of the family keywords, so the substring
test is equivalent to this family assignment. -/
def family : Profile → Family
  | .rectConst => .Rectangle
  | .rectYHalved => .Rectangle
  | .rectZQuartered => .Rectangle
  | .trapConst => .Trapezoid
  | .trapYHalved => .Trapezoid
  | .trapZQuartered => .Trapezoid
  | .ringConst => .RingSegment
  | .ringYHalved => .RingSegment
  | .ringZQuartered => .RingSegment
  | .irregConst => .Irregular
  | .irregYHalved => .Irregular
  | .irregZQuartered => .Irregular

/-- The geometry-factor catalog, lines 65-78 of the source. -/
noncomputable def PROFILE_FACTORS : Profile → ℝ
  | .rectConst => 0.67
  | .rectYHalved => 1.09
  | .rectZQuartered => 0.86
  | .trapConst => 1.00
  | .trapYHalved => 1.64
  | .trapZQuartered => 1.28
  | .ringConst => 1.00
  | .ringYHalved => 1.64
  | .ringZQuartered => 1.28
  | .irregConst => 1/3
  | .irregYHalved => 0.55
  | .irregZQuartered => 0.43

/-- The result dict of `calculate_snap_fit` (line 104): permissible
deflection `y`, deflection force `P`, mating force `W`. -/
structure SnapFitResult where
  y : ℝ
  P : ℝ
  W : ℝ

/-- The only exception the body of `calculate_snap_fit` can raise once all
parameters used by the selected branch are supplied: a plain-float
division with zero denominator. -/
inductive PyError
  | zeroDivisionError
  deriving DecidableEq

/-- Degree-to-radian conversion, `np.radians` at line 85. -/
noncomputable def radians (deg : ℝ) : ℝ := deg * Real.pi / 180

/-- The permissible deflection computed by the profile branch taken in
lines 88-99 of the source. -/
noncomputable def profile_y (p : Profile) (eps L h a b r2 : ℝ) : ℝ :=
  match family p with
  | .Rectangle => PROFILE_FACTORS p * eps * L ^ 2 / h
  | .Trapezoid => PROFILE_FACTORS p * ((a + b) / (2 * a + b)) * eps * L ^ 2 / h
  | .RingSegment => PROFILE_FACTORS p * eps * L ^ 2 / r2
  | .Irregular => PROFILE_FACTORS p * eps * L ^ 2 / h

/-- The section modulus computed by the profile branch taken in
lines 88-99 of the source. -/
noncomputable def profile_Zsec (p : Profile) (h a b Z : ℝ) : ℝ :=
  match family p with
  | .Rectangle => b * h ^ 2 / 6
  | .Trapezoid => (h ^ 2 / 12) * ((a ^ 2 + 4 * a * b + b ^ 2) / (2 * a + b))
  | .RingSegment => Z
  | .Irregular => Z

/-- The deflection force `P = Z_sec * E * eps / L`, line 101. -/
noncomputable def snap_P (p : Profile) (E eps L h a b Z : ℝ) : ℝ :=
  profile_Zsec p h a b Z * E * eps / L

/-- The mating force `W = P * ((mu + tan(alpha)) / (1 - mu*tan(alpha)))`,
line 102, with `alpha = radians alpha_deg` from line 85. -/
noncomputable def snap_W (p : Profile) (E eps L h a b Z mu alpha_deg : ℝ) : ℝ :=
  snap_P p E eps L h a b Z *
    ((mu + Real.tan (radians alpha_deg)) / (1 - mu * Real.tan (radians alpha_deg)))

/-- The zero denominators that make the Python body raise
`ZeroDivisionError`: the geometric denominator of the branch taken
(`h`, `2a+b`, or `r2`) and the length `L` dividing in line 101. -/
def denom_zero (p : Profile) (L h a b r2 : ℝ) : Prop :=
  (match family p with
   | .Rectangle => h = 0
   | .Trapezoid => 2 * a + b = 0 ∨ h = 0
   | .RingSegment => r2 = 0
   | .Irregular => h = 0) ∨ L = 0

open Classical in
/-- The calculation engine, lines 84-104 of the source, with the
parameters in the order of the Python signature
`calculate_snap_fit(profile, E, eps, L, h, b, a, r2, Z, mu, alpha_deg)`.
The body performs no input validation; it evaluates the branch formulas
and the two force formulas directly. -/
noncomputable def calculate_snap_fit (p : Profile) (E eps L h b a r2 Z mu alpha_deg : ℝ) :
    Except PyError SnapFitResult :=
  if denom_zero p L h a b r2 then
    Except.error PyError.zeroDivisionError
  else
    Except.ok
      { y := profile_y p eps L h a b r2
        P := snap_P p E eps L h a b Z
        W := snap_W p E eps L h a b Z mu alpha_deg }

/-- The Python signature has default arguments `mu=0.3, alpha_deg=5`
(line 84); a caller may omit either.  Omitted arguments are modelled as
`none`. -/
noncomputable def calculate_snap_fit_opt (p : Profile) (E eps L h b a r2 Z : ℝ)
    (mu alpha_deg : Option ℝ) : Except PyError SnapFitResult :=
  calculate_snap_fit p E eps L h b a r2 Z (mu.getD 0.3) (alpha_deg.getD 5)

/-- Helper: the engine succeeds exactly when no executed denominator is
zero, and then returns the branch formulas. -/
theorem calculate_snap_fit_of_not {p : Profile} {E eps L h b a r2 Z mu alpha_deg : ℝ}
    (hd : ¬ denom_zero p L h a b r2) :
    calculate_snap_fit p E eps L h b a r2 Z mu alpha_deg =
      Except.ok
        { y := profile_y p eps L h a b r2
          P := snap_P p E eps L h a b Z
          W := snap_W p E eps L h a b Z mu alpha_deg } := by
  rw [calculate_snap_fit, if_neg hd]

/-- Helper: an `ok` result determines the branch formulas and excludes
every zero denominator. -/
theorem calculate_snap_fit_ok_iff {p : Profile} {E eps L h b a r2 Z mu alpha_deg : ℝ}
    {r : SnapFitResult} :
    calculate_snap_fit p E eps L h b a r2 Z mu alpha_deg = Except.ok r ↔
      ¬ denom_zero p L h a b r2 ∧
        r = { y := profile_y p eps L h a b r2
              P := snap_P p E eps L h a b Z
              W := snap_W p E eps L h a b Z mu alpha_deg } := by
  rw [calculate_snap_fit]
  split
  · simp_all
  · simp_all [eq_comm]

/-! Embedding of the Parametric Study sweep, lines 186-215 of the source. -/

/-- The unit-system radio button of line 45; it selects which default
input set the app (and hence the sweep baseline) uses. -/
inductive UnitSystem
  | imperial
  | metric
  deriving DecidableEq

/-- The default-input dict returned by `default_inputs` (lines 110-114). -/
structure DefaultInputs where
  L : ℝ
  h : ℝ
  b : ℝ
  a : ℝ
  r2 : ℝ
  Z : ℝ
  E : ℝ

/-- The function `default_inputs` of lines 110-114 of the source. -/
noncomputable def default_inputs : UnitSystem → DefaultInputs
  | .imperial => { L := 1.0, h := 0.10, b := 0.50, a := 0.60, r2 := 0.50, Z := 0.01, E := 300000.0 }
  | .metric => { L := 25.4, h := 2.54, b := 12.7, a := 15.24, r2 := 12.7, Z := 4.14e-7, E := 2.07e9 }

/-- The three entries of the sweep-parameter selectbox at line 198:
`Thickness h`, `Length L`, `Allowable Strain eps`. -/
inductive SweepParam
  | thicknessH
  | lengthL
  | strainEps
  deriving DecidableEq, Fintype

/-- One row appended by the sweep loop at line 215: the sampled value
together with the engine outputs for that sample. -/
structure SweepRow where
  sweepValue : ℝ
  result : SnapFitResult

/-- The sampling grid `np.linspace(start, stop, steps)` of line 205:
`steps` evenly spaced reals from `start` to `stop` inclusive. -/
noncomputable def linspace (start stop : ℝ) (steps : ℕ) : List ℝ :=
  (List.range steps).map fun i : ℕ => start + (stop - start) * (i : ℝ) / ((steps : ℝ) - 1)

/-- The engine body as executed inside the sweep loop, lines 88-102 on
the arguments of line 214.  There the swept value is an `np.float64`
scalar from `np.linspace`, so a division whose denominator is that value
is a numpy-scalar division: at zero it yields an IEEE infinity with a
RuntimeWarning instead of raising, and the body always returns a result.
Total real division stands in for the non-raising numpy division. -/
noncomputable def calculate_snap_fit_np (p : Profile) (E eps L h b a r2 Z mu alpha_deg : ℝ) :
    SnapFitResult :=
  { y := profile_y p eps L h a b r2
    P := snap_P p E eps L h a b Z
    W := snap_W p E eps L h a b Z mu alpha_deg }

/-- One iteration of the sweep loop, lines 208-214: override exactly one
of `h`, `L`, `eps` with the sampled value, keep the others at the
defaults (`defaults.h`, `defaults.L`, `0.02`), and call the engine with
the hard-coded profile `Rectangle - Constant Cross Section`, the default
`E` and `b`, and the `mu` and `alpha` values of the Calculator tab.  The
source passes `None` for the unused `a`, `r2`, `Z`; the Rectangle branch
never reads them, so they are modelled as `0`. -/
noncomputable def sweep_eval (us : UnitSystem) (param : SweepParam) (mu alpha : ℝ) (v : ℝ) :
    SnapFitResult :=
  calculate_snap_fit_np Profile.rectConst (default_inputs us).E
    (if param = SweepParam.strainEps then v else 0.02)
    (if param = SweepParam.lengthL then v else (default_inputs us).L)
    (if param = SweepParam.thicknessH then v else (default_inputs us).h)
    (default_inputs us).b 0 0 0 mu alpha

/-- The whole sweep of lines 205-215: evaluate the loop body on every
`linspace` sample in order and append one row per sample.  No exception
is possible here: the only denominator that can be zero is the swept
`np.float64` value, whose division does not raise, so the loop always
returns all `steps` rows. -/
noncomputable def sweep_rows (us : UnitSystem) (param : SweepParam) (start stop : ℝ)
    (steps : ℕ) (mu alpha : ℝ) : List SweepRow :=
  (linspace start stop steps).map fun v =>
    { sweepValue := v, result := sweep_eval us param mu alpha v }

/-- Helper: the sweep visits exactly the sampled values, in order. -/
theorem sweep_rows_map_sweepValue (us : UnitSystem) (param : SweepParam) (start stop : ℝ)
    (steps : ℕ) (mu alpha : ℝ) :
    (sweep_rows us param start stop steps mu alpha).map SweepRow.sweepValue =
      linspace start stop steps := by
  rw [sweep_rows, List.map_map]
  show (linspace start stop steps).map (fun v => v) = linspace start stop steps
  simp

/-! Concrete engine evaluations shared by witnesses and counterexamples. -/

/-- Helper: the engine on the Rectangle constant profile with all scalar
inputs 1 and no friction or lead-in. -/
theorem eval_rect_ones :
    calculate_snap_fit Profile.rectConst 1 1 1 1 1 1 1 1 0 0 =
      Except.ok { y := 67/100, P := 1/6, W := 0 } := by
  rw [calculate_snap_fit_of_not (by norm_num [denom_zero, family])]
  simp [profile_y, snap_P, snap_W, profile_Zsec, PROFILE_FACTORS, family, radians,
    Real.tan_zero]
  norm_num

/-- Helper: the engine on the Trapezoid constant profile with all scalar
inputs 1 and no friction or lead-in. -/
theorem eval_trap_ones :
    calculate_snap_fit Profile.trapConst 1 1 1 1 1 1 1 1 0 0 =
      Except.ok { y := 2/3, P := 1/6, W := 0 } := by
  rw [calculate_snap_fit_of_not (by norm_num [denom_zero, family])]
  simp [profile_y, snap_P, snap_W, profile_Zsec, PROFILE_FACTORS, family, radians,
    Real.tan_zero]
  norm_num

/-- Helper: the engine on the Ring Segment constant profile with outer
radius 2 and caller-supplied section modulus 5. -/
theorem eval_ring_example :
    calculate_snap_fit Profile.ringConst 1 1 1 1 1 1 2 5 0 0 =
      Except.ok { y := 1/2, P := 5, W := 0 } := by
  rw [calculate_snap_fit_of_not (by norm_num [denom_zero, family])]
  simp [profile_y, snap_P, snap_W, profile_Zsec, PROFILE_FACTORS, family, radians,
    Real.tan_zero]
  norm_num

/-- Helper: the engine on the Irregular constant profile with thickness 2
and caller-supplied section modulus 5. -/
theorem eval_irreg_example :
    calculate_snap_fit Profile.irregConst 1 1 1 2 1 1 1 5 0 0 =
      Except.ok { y := 1/6, P := 5, W := 0 } := by
  rw [calculate_snap_fit_of_not (by norm_num [denom_zero, family])]
  simp [profile_y, snap_P, snap_W, profile_Zsec, PROFILE_FACTORS, family, radians,
    Real.tan_zero]
  norm_num

/-! Claim theorems. -/

/-- Claim C1: for a Rectangle-family profile the engine returns
`y = C * eps * L^2 / h` and uses the section modulus `Z_sec = b * h^2 / 6`
(so `P = (b * h^2 / 6) * E * eps / L`); for a Trapezoid-family profile it
returns `y = C * (a+b)/(2a+b) * eps * L^2 / h` and uses
`Z_sec = h^2/12 * (a^2 + 4ab + b^2)/(2a+b)`, where `C` is the catalog
factor of the profile. -/
theorem rect_trap_formulas (p : Profile) (E eps L h b a r2 Z mu alpha_deg : ℝ)
    (r : SnapFitResult)
    (hok : calculate_snap_fit p E eps L h b a r2 Z mu alpha_deg = Except.ok r) :
    (family p = Family.Rectangle →
      r.y = PROFILE_FACTORS p * eps * L ^ 2 / h ∧
      r.P = b * h ^ 2 / 6 * E * eps / L) ∧
    (family p = Family.Trapezoid →
      r.y = PROFILE_FACTORS p * ((a + b) / (2 * a + b)) * eps * L ^ 2 / h ∧
      r.P = h ^ 2 / 12 * ((a ^ 2 + 4 * a * b + b ^ 2) / (2 * a + b)) * E * eps / L) := by
  obtain ⟨-, rfl⟩ := calculate_snap_fit_ok_iff.1 hok
  constructor <;> intro hf <;>
    simp [profile_y, snap_P, profile_Zsec, hf]

/-- Witness for C1 at the concrete Rectangle and Trapezoid inputs of
`eval_rect_ones` and `eval_trap_ones`. -/
theorem rect_trap_formulas_witness :
    ((67:ℝ)/100 = PROFILE_FACTORS Profile.rectConst * 1 * 1 ^ 2 / 1 ∧
      (1:ℝ)/6 = 1 * 1 ^ 2 / 6 * 1 * 1 / 1) ∧
    ((2:ℝ)/3 = PROFILE_FACTORS Profile.trapConst * ((1 + 1) / (2 * 1 + 1)) * 1 * 1 ^ 2 / 1 ∧
      (1:ℝ)/6 = 1 ^ 2 / 12 * ((1 ^ 2 + 4 * 1 * 1 + 1 ^ 2) / (2 * 1 + 1)) * 1 * 1 / 1) :=
  ⟨(rect_trap_formulas _ _ _ _ _ _ _ _ _ _ _ _ eval_rect_ones).1 rfl,
   (rect_trap_formulas _ _ _ _ _ _ _ _ _ _ _ _ eval_trap_ones).2 rfl⟩

/-- Claim C2: for a Ring Segment-family profile the engine returns
`y = C * eps * L^2 / r2` and takes `Z_sec` to be the caller-supplied `Z`
(so `P = Z * E * eps / L`); for an Irregular-family profile it returns
`y = C * eps * L^2 / h` and likewise takes `Z_sec = Z`. -/
theorem ring_irregular_formulas (p : Profile) (E eps L h b a r2 Z mu alpha_deg : ℝ)
    (r : SnapFitResult)
    (hok : calculate_snap_fit p E eps L h b a r2 Z mu alpha_deg = Except.ok r) :
    (family p = Family.RingSegment →
      r.y = PROFILE_FACTORS p * eps * L ^ 2 / r2 ∧
      r.P = Z * E * eps / L) ∧
    (family p = Family.Irregular →
      r.y = PROFILE_FACTORS p * eps * L ^ 2 / h ∧
      r.P = Z * E * eps / L) := by
  obtain ⟨-, rfl⟩ := calculate_snap_fit_ok_iff.1 hok
  constructor <;> intro hf <;>
    simp [profile_y, snap_P, profile_Zsec, hf]

/-- Witness for C2 at the concrete Ring Segment and Irregular inputs of
`eval_ring_example` and `eval_irreg_example`. -/
theorem ring_irregular_formulas_witness :
    ((1:ℝ)/2 = PROFILE_FACTORS Profile.ringConst * 1 * 1 ^ 2 / 2 ∧
      (5:ℝ) = 5 * 1 * 1 / 1) ∧
    ((1:ℝ)/6 = PROFILE_FACTORS Profile.irregConst * 1 * 1 ^ 2 / 2 ∧
      (5:ℝ) = 5 * 1 * 1 / 1) :=
  ⟨(ring_irregular_formulas _ _ _ _ _ _ _ _ _ _ _ _ eval_ring_example).1 rfl,
   (ring_irregular_formulas _ _ _ _ _ _ _ _ _ _ _ _ eval_irreg_example).2 rfl⟩

/-- Claim C3: for every profile family, once `y` and `Z_sec` are
determined the engine computes `P = Z_sec * E * eps / L` and
`W = P * (mu + tan(alpha_rad)) / (1 - mu * tan(alpha_rad))` with
`alpha_rad` the lead-in angle converted from degrees to radians; the same
two formulas apply uniformly to all four families. -/
theorem force_formulas (p : Profile) (E eps L h b a r2 Z mu alpha_deg : ℝ)
    (r : SnapFitResult)
    (hok : calculate_snap_fit p E eps L h b a r2 Z mu alpha_deg = Except.ok r) :
    r.P = profile_Zsec p h a b Z * E * eps / L ∧
    r.W = r.P * ((mu + Real.tan (radians alpha_deg)) /
      (1 - mu * Real.tan (radians alpha_deg))) := by
  obtain ⟨-, rfl⟩ := calculate_snap_fit_ok_iff.1 hok
  exact ⟨rfl, rfl⟩

/-- Witness for C3 at the concrete input of `eval_rect_ones`. -/
theorem force_formulas_witness :
    (1:ℝ)/6 = profile_Zsec Profile.rectConst 1 1 1 1 * 1 * 1 / 1 ∧
    (0:ℝ) = 1/6 * ((0 + Real.tan (radians 0)) / (1 - 0 * Real.tan (radians 0))) :=
  force_formulas _ _ _ _ _ _ _ _ _ _ _ _ eval_rect_ones

/-- Counterexample to C4 as stated: at `L = -1` (an invalid length, `L <= 0`)
with the Rectangle constant profile and otherwise unobjectionable inputs,
the engine does not fail with any error; it returns a full result with a
negative deflection force. -/
theorem invalid_input_returns_ok :
    ((-1:ℝ) ≤ 0) ∧
    calculate_snap_fit Profile.rectConst 1 1 (-1) 1 1 1 1 1 (3/10) 0 =
      Except.ok { y := 67/100, P := -(1/6), W := -(1/20) } := by
  refine ⟨by norm_num, ?_⟩
  rw [calculate_snap_fit_of_not (by norm_num [denom_zero, family])]
  simp [profile_y, snap_P, snap_W, profile_Zsec, PROFILE_FACTORS, family, radians,
    Real.tan_zero]
  norm_num

/-- Claim C4 (amended): the engine performs no domain validation at all.
Whenever the denominators of the executed divisions are nonzero it
returns a computed result, even if `L`, `E`, `eps` or a dimension is
non-positive or `mu * tan(alpha)` is at least 1; no `InvalidParameter`
detection exists in the code. -/
theorem no_input_validation (p : Profile) (E eps L h b a r2 Z mu alpha_deg : ℝ)
    (hh : h ≠ 0) (hab : 2 * a + b ≠ 0) (hr2 : r2 ≠ 0) (hL : L ≠ 0) :
    calculate_snap_fit p E eps L h b a r2 Z mu alpha_deg =
      Except.ok
        { y := profile_y p eps L h a b r2
          P := snap_P p E eps L h a b Z
          W := snap_W p E eps L h a b Z mu alpha_deg } := by
  apply calculate_snap_fit_of_not
  cases hf : family p <;> simp [denom_zero, hf, hh, hab, hr2, hL]

/-- Witness for C4 (amended) at the invalid length `L = -1`. -/
theorem no_input_validation_witness :
    calculate_snap_fit Profile.rectConst 1 1 (-1) 1 1 1 1 1 (3/10) 0 =
      Except.ok
        { y := profile_y Profile.rectConst 1 (-1) 1 1 1 1
          P := snap_P Profile.rectConst 1 1 (-1) 1 1 1 1
          W := snap_W Profile.rectConst 1 1 (-1) 1 1 1 1 (3/10) 0 } :=
  no_input_validation _ _ _ _ _ _ _ _ _ _ _
    (by norm_num) (by norm_num) (by norm_num) (by norm_num)

/-- Claim C5: the catalog has exactly 12 profile variants, each mapped to
exactly the stated fixed constant factor: the Rectangle family to
0.67 / 1.09 / 0.86, the Trapezoid and Ring Segment families both to
1.00 / 1.64 / 1.28, and the Irregular family to 1/3 / 0.55 / 0.43. -/
theorem profile_catalog_spec :
    Fintype.card Profile = 12 ∧
    PROFILE_FACTORS Profile.rectConst = 0.67 ∧
    PROFILE_FACTORS Profile.rectYHalved = 1.09 ∧
    PROFILE_FACTORS Profile.rectZQuartered = 0.86 ∧
    PROFILE_FACTORS Profile.trapConst = 1.00 ∧
    PROFILE_FACTORS Profile.trapYHalved = 1.64 ∧
    PROFILE_FACTORS Profile.trapZQuartered = 1.28 ∧
    PROFILE_FACTORS Profile.ringConst = 1.00 ∧
    PROFILE_FACTORS Profile.ringYHalved = 1.64 ∧
    PROFILE_FACTORS Profile.ringZQuartered = 1.28 ∧
    PROFILE_FACTORS Profile.irregConst = 1/3 ∧
    PROFILE_FACTORS Profile.irregYHalved = 0.55 ∧
    PROFILE_FACTORS Profile.irregZQuartered = 0.43 :=
  ⟨rfl, rfl, rfl, rfl, rfl, rfl, rfl, rfl, rfl, rfl, rfl, rfl, rfl⟩

/-- Helper: the engine on the Rectangle constant profile with all scalar
inputs 1, friction 1/2 and no lead-in angle. -/
theorem eval_rect_mu_half :
    calculate_snap_fit Profile.rectConst 1 1 1 1 1 1 1 1 (1/2) 0 =
      Except.ok { y := 67/100, P := 1/6, W := 1/12 } := by
  rw [calculate_snap_fit_of_not (by norm_num [denom_zero, family])]
  simp [profile_y, snap_P, snap_W, profile_Zsec, PROFILE_FACTORS, family, radians,
    Real.tan_zero]
  norm_num

/-- Helper: the engine on the Rectangle constant profile with all scalar
inputs 1, friction 2 and no lead-in angle. -/
theorem eval_rect_mu_two :
    calculate_snap_fit Profile.rectConst 1 1 1 1 1 1 1 1 2 0 =
      Except.ok { y := 67/100, P := 1/6, W := 1/3 } := by
  rw [calculate_snap_fit_of_not (by norm_num [denom_zero, family])]
  simp [profile_y, snap_P, snap_W, profile_Zsec, PROFILE_FACTORS, family, radians,
    Real.tan_zero]
  norm_num

/-- Counterexample to C6 as stated: with every dimension positive,
`mu = 1/2 > 0`, `alpha = 0 >= 0` and `mu * tan(alpha) = 0 < 1`, the
returned mating force `W = 1/12` is strictly smaller than the deflection
force `P = 1/6`. -/
theorem mating_force_lt_deflection_example :
    (0:ℝ) < 1/2 ∧ ((0:ℝ) ≤ 0) ∧ (1/2 : ℝ) * Real.tan (radians 0) < 1 ∧
    calculate_snap_fit Profile.rectConst 1 1 1 1 1 1 1 1 (1/2) 0 =
      Except.ok { y := 67/100, P := 1/6, W := 1/12 } ∧
    (1:ℝ)/12 < 1/6 := by
  refine ⟨by norm_num, le_refl 0, by norm_num [radians, Real.tan_zero], ?_, by norm_num⟩
  exact eval_rect_mu_half

/-- Claim C6 (amended): for valid inputs with `mu > 0`, `alpha >= 0` and
`mu * tan(alpha_rad) < 1`, the mating force is greater than or equal to
the deflection force exactly when
`1 - mu * tan(alpha_rad) <= mu + tan(alpha_rad)`; for small `mu` and
`alpha` (such as `mu = 1/2`, `alpha = 0`) the inequality `W >= P` fails. -/
theorem mating_force_iff (p : Profile) (E eps L h b a r2 Z mu alpha_deg : ℝ)
    (r : SnapFitResult)
    (hE : 0 < E) (heps : 0 < eps) (hL : 0 < L) (hh : 0 < h) (hb : 0 < b)
    (ha : 0 < a) (hr2 : 0 < r2) (hZ : 0 < Z)
    (hmu : 0 < mu) (halpha : 0 ≤ alpha_deg)
    (hlock : mu * Real.tan (radians alpha_deg) < 1)
    (hok : calculate_snap_fit p E eps L h b a r2 Z mu alpha_deg = Except.ok r) :
    r.P ≤ r.W ↔
      1 - mu * Real.tan (radians alpha_deg) ≤ mu + Real.tan (radians alpha_deg) := by
  obtain ⟨-, rfl⟩ := calculate_snap_fit_ok_iff.1 hok
  have hZsec : 0 < profile_Zsec p h a b Z := by
    cases hf : family p <;> simp [profile_Zsec, hf] <;> positivity
  have hP : 0 < snap_P p E eps L h a b Z := by
    rw [snap_P]; positivity
  have hden : 0 < 1 - mu * Real.tan (radians alpha_deg) := by linarith
  have hstep :
      snap_P p E eps L h a b Z ≤ snap_W p E eps L h a b Z mu alpha_deg ↔
        1 ≤ (mu + Real.tan (radians alpha_deg)) /
          (1 - mu * Real.tan (radians alpha_deg)) := by
    rw [snap_W]
    constructor
    · intro hle
      by_contra hcon
      push_neg at hcon
      nlinarith
    · intro hge
      nlinarith
  exact hstep.trans (one_le_div hden)

/-- Witness for C6 (amended) at the concrete input of `eval_rect_mu_two`. -/
theorem mating_force_iff_witness :
    (1:ℝ)/6 ≤ 1/3 ↔
      1 - 2 * Real.tan (radians 0) ≤ 2 + Real.tan (radians 0) :=
  mating_force_iff _ _ _ _ _ _ _ _ _ _ _ _
    (by norm_num) (by norm_num) (by norm_num) (by norm_num) (by norm_num)
    (by norm_num) (by norm_num) (by norm_num) (by norm_num) (by norm_num)
    (by norm_num [radians, Real.tan_zero]) eval_rect_mu_two

/-- Counterexample to C8 as stated: at the reference input the engine
returns exactly `y = 8509/2500 = 3.4036`, which is not within `1e-3`
relative tolerance of the stated `3.3508`, and exactly `P = 22258020`,
which is not within `1e-3` relative tolerance of the stated `8873.5`. -/
theorem reference_case_mismatch :
    (calculate_snap_fit Profile.rectConst 2.07e9 0.02 25.4 2.54 12.7 0 0 0 0.3 5).map
        SnapFitResult.y = Except.ok (8509/2500) ∧
    ¬ |(8509:ℝ)/2500 - 3.3508| ≤ 1e-3 * 3.3508 ∧
    (calculate_snap_fit Profile.rectConst 2.07e9 0.02 25.4 2.54 12.7 0 0 0 0.3 5).map
        SnapFitResult.P = Except.ok 22258020 ∧
    ¬ |(22258020:ℝ) - 8873.5| ≤ 1e-3 * 8873.5 := by
  refine ⟨?_, ?_, ?_, ?_⟩
  · rw [calculate_snap_fit_of_not (by norm_num [denom_zero, family])]
    simp [Except.map, profile_y, PROFILE_FACTORS, family]
    norm_num
  · rw [abs_of_nonneg (by norm_num)]
    norm_num
  · rw [calculate_snap_fit_of_not (by norm_num [denom_zero, family])]
    simp [Except.map, snap_P, profile_Zsec, family]
    norm_num
  · rw [abs_of_nonneg (by norm_num)]
    norm_num

/-- Claim C8 (amended): at the reference input
(`C = 0.67, eps = 0.02, L = 25.4, h = 2.54, b = 12.7, E = 2.07e9,
mu = 0.30, alpha = 5`) the engine returns exactly `y = 3.4036` (not
3.3508), uses the internal section modulus
`Z_sec = 12.7 * 2.54^2 / 6 = 13.6558...` (within `1e-3` of the stated
13.656), and returns exactly `P = 22258020` (not 8873.5). -/
theorem reference_case_exact :
    (calculate_snap_fit Profile.rectConst 2.07e9 0.02 25.4 2.54 12.7 0 0 0 0.3 5).map
        SnapFitResult.y = Except.ok (8509/2500) ∧
    profile_Zsec Profile.rectConst 2.54 0 12.7 0 = 2048383/150000 ∧
    |(2048383:ℝ)/150000 - 13.656| ≤ 1e-3 * 13.656 ∧
    (calculate_snap_fit Profile.rectConst 2.07e9 0.02 25.4 2.54 12.7 0 0 0 0.3 5).map
        SnapFitResult.P = Except.ok 22258020 := by
  refine ⟨?_, ?_, ?_, ?_⟩
  · rw [calculate_snap_fit_of_not (by norm_num [denom_zero, family])]
    simp [Except.map, profile_y, PROFILE_FACTORS, family]
    norm_num
  · simp [profile_Zsec, family]
    norm_num
  · rw [abs_of_nonpos (by norm_num)]
    norm_num
  · rw [calculate_snap_fit_of_not (by norm_num [denom_zero, family])]
    simp [Except.map, snap_P, profile_Zsec, family]
    norm_num

/-- Claim C10: the contact parameters are optional at the engine
interface, with defaults `mu = 0.3` and `alpha_deg = 5`; a call omitting
either one does not fail and equals the call with the default value
substituted for the omitted parameter. -/
theorem contact_defaults (p : Profile) (E eps L h b a r2 Z mu0 alpha0 : ℝ) :
    calculate_snap_fit_opt p E eps L h b a r2 Z none none =
      calculate_snap_fit p E eps L h b a r2 Z 0.3 5 ∧
    calculate_snap_fit_opt p E eps L h b a r2 Z (some mu0) none =
      calculate_snap_fit p E eps L h b a r2 Z mu0 5 ∧
    calculate_snap_fit_opt p E eps L h b a r2 Z none (some alpha0) =
      calculate_snap_fit p E eps L h b a r2 Z 0.3 alpha0 :=
  ⟨rfl, rfl, rfl⟩

/-! Sweep claims. -/

/-- Helper: the sweep loop body on the Metric strain sweep at sampled
strain 1 with no friction or lead-in. -/
theorem eval_metric_eps_one :
    sweep_eval UnitSystem.metric SweepParam.strainEps 0 0 1 =
      { y := 8509/50, P := 1112901000, W := 0 } := by
  show calculate_snap_fit_np Profile.rectConst (default_inputs UnitSystem.metric).E 1
    (default_inputs UnitSystem.metric).L (default_inputs UnitSystem.metric).h
    (default_inputs UnitSystem.metric).b 0 0 0 0 0 = _
  simp [calculate_snap_fit_np, profile_y, snap_P, snap_W, profile_Zsec, PROFILE_FACTORS,
    family, radians, Real.tan_zero, default_inputs]
  norm_num

/-- Helper: the sweep loop body on the Metric thickness sweep at sampled
thickness 1 with no friction or lead-in. -/
theorem eval_metric_thickness_one :
    sweep_eval UnitSystem.metric SweepParam.thicknessH 0 0 1 =
      { y := 1080643/125000, P := 3450000, W := 0 } := by
  show calculate_snap_fit_np Profile.rectConst (default_inputs UnitSystem.metric).E 0.02
    (default_inputs UnitSystem.metric).L 1
    (default_inputs UnitSystem.metric).b 0 0 0 0 0 = _
  simp [calculate_snap_fit_np, profile_y, snap_P, snap_W, profile_Zsec, PROFILE_FACTORS,
    family, radians, Real.tan_zero, default_inputs]
  norm_num

/-- Helper: the sweep loop body on the Metric thickness sweep at sampled
thickness 1 with friction 1 and no lead-in. -/
theorem eval_metric_thickness_mu_one :
    sweep_eval UnitSystem.metric SweepParam.thicknessH 1 0 1 =
      { y := 1080643/125000, P := 3450000, W := 3450000 } := by
  show calculate_snap_fit_np Profile.rectConst (default_inputs UnitSystem.metric).E 0.02
    (default_inputs UnitSystem.metric).L 1
    (default_inputs UnitSystem.metric).b 0 0 0 1 0 = _
  simp [calculate_snap_fit_np, profile_y, snap_P, snap_W, profile_Zsec, PROFILE_FACTORS,
    family, radians, Real.tan_zero, default_inputs]
  norm_num

/-- Helper: the rows produced by the Metric strain sweep from 1 to 1 in
2 steps with no friction or lead-in. -/
noncomputable def sweep_witness_rows : List SweepRow :=
  [{ sweepValue := 1, result := { y := 8509/50, P := 1112901000, W := 0 } },
   { sweepValue := 1, result := { y := 8509/50, P := 1112901000, W := 0 } }]

/-- Helper: evaluation of that whole sweep. -/
theorem sweep_metric_eps_ones :
    sweep_rows UnitSystem.metric SweepParam.strainEps 1 1 2 0 0 = sweep_witness_rows := by
  have hlin : linspace 1 1 2 = [1, 1] := by
    norm_num [linspace, List.range_succ]
  rw [sweep_rows, hlin]
  simp [eval_metric_eps_one, sweep_witness_rows]

/-- Counterexample to C7 as stated: a sweep from `start = 1` down to
`stop = 1/2` yields the strictly decreasing sweep values `[1, 1/2]`, so
the sweep values are not monotonically non-decreasing. -/
theorem sweep_not_monotone_example :
    (sweep_rows UnitSystem.metric SweepParam.thicknessH 1 (1/2) 2 0 0).map
        SweepRow.sweepValue = [1, 1/2] ∧
    ¬ ((1:ℝ) ≤ 1/2) := by
  refine ⟨?_, by norm_num⟩
  rw [sweep_rows_map_sweepValue]
  norm_num [linspace, List.range_succ]

/-- Claim C7 (amended): every sweep with `steps = N >= 2` returns exactly
`N` rows whose sweep values are the `np.linspace` samples; the first
sweep value is `start` and the last is `stop`; the values are
monotonically non-decreasing when `start <= stop` and strictly
increasing when `start < stop` (when `start > stop` they decrease).  A
swept sample of 0 still yields a row: the numpy division returns an
infinity with a warning instead of raising. -/
theorem sweep_rows_spec (us : UnitSystem) (param : SweepParam) (start stop : ℝ)
    (steps : ℕ) (mu alpha : ℝ)
    (h2 : 2 ≤ steps) :
    (sweep_rows us param start stop steps mu alpha).length = steps ∧
    (sweep_rows us param start stop steps mu alpha).map SweepRow.sweepValue =
      (List.range steps).map
        (fun i : ℕ => start + (stop - start) * (i : ℝ) / ((steps : ℝ) - 1)) ∧
    ((sweep_rows us param start stop steps mu alpha).map SweepRow.sweepValue).head? =
      some start ∧
    ((sweep_rows us param start stop steps mu alpha).map SweepRow.sweepValue).getLast? =
      some stop ∧
    (start ≤ stop →
      ((sweep_rows us param start stop steps mu alpha).map
        SweepRow.sweepValue).Pairwise (· ≤ ·)) ∧
    (start < stop →
      ((sweep_rows us param start stop steps mu alpha).map
        SweepRow.sweepValue).Pairwise (· < ·)) := by
  have hmap : (sweep_rows us param start stop steps mu alpha).map SweepRow.sweepValue =
      linspace start stop steps :=
    sweep_rows_map_sweepValue us param start stop steps mu alpha
  have hlin : linspace start stop steps =
      (List.range steps).map
        (fun i : ℕ => start + (stop - start) * (i : ℝ) / ((steps : ℝ) - 1)) := by
    unfold linspace
    rfl
  have hlen : (sweep_rows us param start stop steps mu alpha).length = steps := by
    simpa using congrArg List.length (hmap.trans hlin)
  have hd : (0:ℝ) < (steps : ℝ) - 1 := by
    have : (2:ℝ) ≤ (steps : ℝ) := by exact_mod_cast h2
    linarith
  obtain ⟨n, rfl⟩ : ∃ n, steps = n + 2 := ⟨steps - 2, by omega⟩
  refine ⟨hlen, hmap.trans hlin, ?_, ?_, ?_, ?_⟩
  · rw [hmap, hlin, List.range_succ_eq_map]
    norm_num
  · rw [hmap, hlin, List.range_succ, List.map_append]
    simp only [List.map_cons, List.map_nil]
    rw [List.getLast?_concat]
    have hcast : ((n + 1 : ℕ) : ℝ) = ((n + 2 : ℕ) : ℝ) - 1 := by push_cast; ring
    rw [hcast, mul_div_assoc, div_self hd.ne', mul_one]
    norm_num
  · intro hle
    rw [hmap, hlin]
    refine List.Pairwise.map _ (fun i j hij => ?_) (List.pairwise_lt_range _)
    have hsub : (0:ℝ) ≤ stop - start := sub_nonneg.2 hle
    have hcast : (i : ℝ) ≤ (j : ℝ) := by exact_mod_cast hij.le
    have hnum : (stop - start) * (i : ℝ) ≤ (stop - start) * (j : ℝ) :=
      mul_le_mul_of_nonneg_left hcast hsub
    have hdiv : (stop - start) * (i : ℝ) / (((n + 2 : ℕ) : ℝ) - 1) ≤
        (stop - start) * (j : ℝ) / (((n + 2 : ℕ) : ℝ) - 1) :=
      (div_le_div_iff_of_pos_right hd).2 hnum
    linarith
  · intro hlt
    rw [hmap, hlin]
    refine List.Pairwise.map _ (fun i j hij => ?_) (List.pairwise_lt_range _)
    have hsub : (0:ℝ) < stop - start := sub_pos.2 hlt
    have hcast : (i : ℝ) < (j : ℝ) := by exact_mod_cast hij
    have hnum : (stop - start) * (i : ℝ) < (stop - start) * (j : ℝ) :=
      mul_lt_mul_of_pos_left hcast hsub
    have hdiv : (stop - start) * (i : ℝ) / (((n + 2 : ℕ) : ℝ) - 1) <
        (stop - start) * (j : ℝ) / (((n + 2 : ℕ) : ℝ) - 1) :=
      (div_lt_div_iff_of_pos_right hd).2 hnum
    linarith

/-- Witness for C7 (amended) on the Metric strain sweep with
`start = stop = 1` and `steps = 2`. -/
theorem sweep_rows_spec_witness :
    (sweep_rows UnitSystem.metric SweepParam.strainEps 1 1 2 0 0).length = 2 ∧
    (sweep_rows UnitSystem.metric SweepParam.strainEps 1 1 2 0 0).map
        SweepRow.sweepValue =
      (List.range 2).map (fun i : ℕ => 1 + ((1:ℝ) - 1) * (i : ℝ) / (((2:ℕ) : ℝ) - 1)) ∧
    ((sweep_rows UnitSystem.metric SweepParam.strainEps 1 1 2 0 0).map
        SweepRow.sweepValue).head? = some 1 ∧
    ((sweep_rows UnitSystem.metric SweepParam.strainEps 1 1 2 0 0).map
        SweepRow.sweepValue).getLast? = some 1 ∧
    ((1:ℝ) ≤ 1 →
      ((sweep_rows UnitSystem.metric SweepParam.strainEps 1 1 2 0 0).map
        SweepRow.sweepValue).Pairwise (· ≤ ·)) ∧
    ((1:ℝ) < 1 →
      ((sweep_rows UnitSystem.metric SweepParam.strainEps 1 1 2 0 0).map
        SweepRow.sweepValue).Pairwise (· < ·)) :=
  sweep_rows_spec _ _ _ _ _ _ _ (by norm_num)

/-- Counterexample to C9 as stated: two sweeps that agree in every sweep
input but use different Calculator-tab friction values `mu = 0` and
`mu = 1` produce different rows, so the sweep is not evaluated from a
fixed baseline regardless of the parameters selected elsewhere. -/
theorem sweep_depends_on_contact_params :
    (sweep_rows UnitSystem.metric SweepParam.thicknessH 1 1 2 0 0).map
        (fun row => row.result.W) = [0, 0] ∧
    (sweep_rows UnitSystem.metric SweepParam.thicknessH 1 1 2 1 0).map
        (fun row => row.result.W) = [3450000, 3450000] ∧
    ((0:ℝ) ≠ 3450000) := by
  refine ⟨?_, ?_, by norm_num⟩
  · have hlin : linspace 1 1 2 = [1, 1] := by norm_num [linspace, List.range_succ]
    rw [sweep_rows, hlin]
    simp [eval_metric_thickness_one]
  · have hlin : linspace 1 1 2 = [1, 1] := by norm_num [linspace, List.range_succ]
    rw [sweep_rows, hlin]
    simp [eval_metric_thickness_mu_one]

/-- Claim C9 (amended): every row of every sweep is evaluated with the
hard-coded profile Rectangle - Constant Cross Section and the fixed
baseline (the default `E` and `b` of the active unit system, and the
default values of whichever of `h`, `L`, `eps` are not being swept, the
strain default being the literal 0.02), regardless of the profile and
geometry or material values selected in the Calculator tab; the swept
parameter is one of exactly three choices (`h`, `L`, `eps`).  However,
the contact parameters `mu` and `alpha` of the Calculator tab are passed
through to every row. -/
theorem sweep_baseline (us : UnitSystem) (param : SweepParam) (start stop : ℝ)
    (steps : ℕ) (mu alpha : ℝ) :
    Fintype.card SweepParam = 3 ∧
    ∀ row ∈ sweep_rows us param start stop steps mu alpha,
      calculate_snap_fit_np Profile.rectConst (default_inputs us).E
        (if param = SweepParam.strainEps then row.sweepValue else 0.02)
        (if param = SweepParam.lengthL then row.sweepValue else (default_inputs us).L)
        (if param = SweepParam.thicknessH then row.sweepValue else (default_inputs us).h)
        (default_inputs us).b 0 0 0 mu alpha = row.result := by
  refine ⟨rfl, fun row hrow => ?_⟩
  rw [sweep_rows] at hrow
  obtain ⟨v, hv, rfl⟩ := List.mem_map.1 hrow
  rfl

/-- Witness for C9 (amended) at the first row of the sweep of
`sweep_metric_eps_ones`. -/
theorem sweep_baseline_witness :
    calculate_snap_fit_np Profile.rectConst (default_inputs UnitSystem.metric).E
      (if SweepParam.strainEps = SweepParam.strainEps then (1:ℝ) else 0.02)
      (if SweepParam.strainEps = SweepParam.lengthL then (1:ℝ)
        else (default_inputs UnitSystem.metric).L)
      (if SweepParam.strainEps = SweepParam.thicknessH then (1:ℝ)
        else (default_inputs UnitSystem.metric).h)
      (default_inputs UnitSystem.metric).b 0 0 0 0 0 =
      { y := 8509/50, P := 1112901000, W := 0 } :=
  (sweep_baseline UnitSystem.metric SweepParam.strainEps 1 1 2 0 0).2
    { sweepValue := 1, result := { y := 8509/50, P := 1112901000, W := 0 } }
    (by rw [sweep_metric_eps_ones]; simp [sweep_witness_rows])

end SnapFit
